import Mathlib

/-!
Shallow embedding of the Vulkan tensor-storage subsystem
(`backends/vulkan/runtime/api/Tensor.cpp`, namespace `vkcompute`):
the layout calculator (`calc_gpu_sizes`, `create_image_extents`),
the physical-resource allocator (`allocate_image`, `allocate_buffer`),
`vTensorStorage` (hazard tracking via `transition`, reallocation) and
`vTensor` (size metadata, `virtual_resize`, `reallocate`).

Machine integers are modelled as `Nat`: logical shapes are sequences of
non-negative dimension sizes and all bitmask arithmetic (`&`, `|`) is
performed with `Nat.land` / `Nat.lor`, which agree with the C++ operations
on the value ranges in use.  `VK_CHECK_COND` failures become `Except`
errors of the `InvalidArgument` class.
-/

namespace VkCompute

/-- `api::StorageType`. -/
inductive StorageType where
  | kBuffer
  | kTexture3D
  | kTexture2D
deriving DecidableEq, Repr

/-- `api::GPUMemoryLayout`. -/
inductive GPUMemoryLayout where
  | kWidthPacked
  | kHeightPacked
  | kChannelsPacked
deriving DecidableEq, Repr

/-- Error class raised by `VK_CHECK_COND` (`Error::InvalidArgument`). -/
inductive VkError where
  | invalidArgument (msg : String)
deriving DecidableEq, Repr

/-- `api::utils::uvec3`: `data[0] = x`, `data[1] = y`, `data[2] = z`. -/
structure UVec3 where
  x : Nat
  y : Nat
  z : Nat
deriving DecidableEq, Repr

/-- Modelled from the spec: the indexing utility (`api::utils::val_at`,
declared in `Utils.h`, which is not part of the sources) reads the
dimension counted from the innermost end (`val_at(-k, sizes)` is the k-th
dimension from the end) and treats missing leading dimensions as 1.
`val_at k sizes` here corresponds to `val_at(-k, sizes)` in the C++. -/
def val_at (k : Nat) (sizes : List Nat) : Nat :=
  sizes.reverse.getD (k - 1) 1

/-- Modelled from the spec: `api::utils::align_up(x, 4)` (declared in
`Utils.h`, not part of the sources) rounds `x` up to the next multiple
of the alignment. -/
def align_up (x m : Nat) : Nat :=
  (x + m - 1) / m * m

/-- Modelled from the spec: `api::utils::multiply_integers` (declared in
`Utils.h`, not part of the sources) is the product of the entries, the
element count of the physical shape. -/
def multiply_integers (sizes : List Nat) : Nat :=
  sizes.prod

/-- Modelled from the spec: `api::utils::make_whcn_ivec4` (declared in
`Utils.h`, not part of the sources) mirrors the logical shape for shaders
as (width, height, channel, batch), missing dimensions = 1. -/
def make_whcn_ivec4 (sizes : List Nat) : List Nat :=
  [val_at 1 sizes, val_at 2 sizes, val_at 3 sizes, val_at 4 sizes]

/-- The depth, counted from the innermost dimension, of the axis selected
by each packing policy: width-packed = last (1), height-packed =
second-to-last (2), channels-packed = third-to-last (3). -/
def packed_offset : GPUMemoryLayout → Nat
  | .kWidthPacked => 1
  | .kHeightPacked => 2
  | .kChannelsPacked => 3

/-- `calc_gpu_sizes` (`Tensor.cpp` lines 24-77): derive the physical GPU
shape from a logical shape, packing policy and storage type.  For buffer
storage the logical shape is copied verbatim; for texture storage the
shape is normalized to exactly 4 right-aligned entries (rank > 4 fails
the `VK_CHECK_COND`).  Then the axis selected by the memory layout, when
it exists at the required depth, is aligned up to a multiple of 4 using
`val_at` on the ORIGINAL logical sizes. -/
def calc_gpu_sizes (sizes : List Nat) (memory_layout : GPUMemoryLayout)
    (storage_type : StorageType) : Except VkError (List Nat) := do
  let gpu_sizes ←
    if storage_type = .kBuffer then
      pure sizes
    else
      if sizes.length ≤ 4 then
        pure [val_at 4 sizes, val_at 3 sizes, val_at 2 sizes, val_at 1 sizes]
      else
        throw (.invalidArgument "Texture storage only valid for 0 <= ndim <= 4")
  let ndim := gpu_sizes.length
  let k := packed_offset memory_layout
  if k ≤ ndim then
    pure (gpu_sizes.set (ndim - k) (align_up (val_at k sizes) 4))
  else
    pure gpu_sizes

/-- `create_image_extents` (`Tensor.cpp` lines 83-122): the extents of the
image texture storing a tensor of the given physical shape.  Buffer
storage: the zero extent.  Texture storage: rank must be 1..4; extract
width/height/channels/batch right-aligned (missing = 1), divide the
packed axis by 4 (failing when it is not a multiple of 4) and collapse
batch and channels into the depth component. -/
def create_image_extents (gpu_sizes : List Nat) (storage_type : StorageType)
    (memory_layout : GPUMemoryLayout) : Except VkError UVec3 :=
  let ndim := gpu_sizes.length
  if storage_type = .kBuffer then
    pure ⟨0, 0, 0⟩
  else if 1 ≤ ndim ∧ ndim ≤ 4 then
    let width := val_at 1 gpu_sizes
    let height := val_at 2 gpu_sizes
    let channels := val_at 3 gpu_sizes
    let batch := val_at 4 gpu_sizes
    match memory_layout with
    | .kWidthPacked =>
      if width % 4 = 0 then
        pure ⟨width / 4, height, batch * channels⟩
      else
        throw (.invalidArgument "Width must be divisible by 4!")
    | .kHeightPacked =>
      if height % 4 = 0 then
        pure ⟨width, height / 4, batch * channels⟩
      else
        throw (.invalidArgument "Height must be divisible by 4!")
    | .kChannelsPacked =>
      if channels % 4 = 0 then
        pure ⟨width, height, batch * (channels / 4)⟩
      else
        throw (.invalidArgument "Channels must be divisible by 4!")
  else
    throw (.invalidArgument "Texture storage only valid for 1 <= ndim <= 4!")

example : calc_gpu_sizes [1, 3, 8, 8] .kChannelsPacked .kTexture3D =
    .ok [1, 4, 8, 8] := rfl

example : create_image_extents [1, 4, 8, 8] .kTexture3D .kChannelsPacked =
    .ok ⟨8, 8, 1⟩ := rfl

example : calc_gpu_sizes [10] .kWidthPacked .kBuffer = .ok [12] := rfl

example : calc_gpu_sizes [4] .kWidthPacked .kTexture3D = .ok [1, 1, 1, 4] :=
  rfl

example : create_image_extents [1, 1, 1, 4] .kTexture3D .kWidthPacked =
    .ok ⟨1, 1, 1⟩ := rfl

/-- `VK_IMAGE_LAYOUT_UNDEFINED`. -/
def VK_IMAGE_LAYOUT_UNDEFINED : Nat := 0

/-- `VK_PIPELINE_STAGE_TOP_OF_PIPE_BIT`. -/
def VK_PIPELINE_STAGE_TOP_OF_PIPE_BIT : Nat := 1

/-- `VK_PIPELINE_STAGE_BOTTOM_OF_PIPE_BIT`. -/
def VK_PIPELINE_STAGE_BOTTOM_OF_PIPE_BIT : Nat := 8192

/-- Modelled from the spec: the WRITE bit of the read/write access bitmask
(`api::MemoryAccessType::WRITE`, declared outside the sources). -/
def MemoryAccessWRITE : Nat := 2

/-- Modelled from the spec: the READ bit of the read/write access bitmask
(`api::MemoryAccessType::READ`, declared outside the sources). -/
def MemoryAccessREAD : Nat := 1

/-- `api::VulkanImage`, abstracted to what this subsystem observes: the
current layout tag (mutated by `set_layout`) and the extent it was created
with.  A default-constructed (null) image is modelled as `Option.none`;
`allocate_image` returns `none` exactly when it returns the empty
`VulkanImage`. -/
structure VulkanImage where
  layout : Nat
  extents : UVec3
deriving DecidableEq, Repr

/-- `api::VulkanBuffer`, abstracted to its byte size.  A
default-constructed (null) buffer is modelled as `Option.none`. -/
structure VulkanBuffer where
  size : Nat
deriving DecidableEq, Repr

/-- The hazard record `vTensorStorage::last_access_`
(`api::MemoryAccessFlags` / `api::PipelineStageFlags` bitmasks).
Zero-initialized (`last_access_{}`). -/
structure LastAccess where
  stage : Nat
  access : Nat
deriving DecidableEq, Repr

/-- `allocate_image` (`Tensor.cpp` lines 332-375): for the texture storage
types, creates an image of the given extents in the initial
(`VK_IMAGE_LAYOUT_UNDEFINED`) layout; for any other storage type returns
the empty `VulkanImage` (modelled `none`).  The sampler configuration,
format and deferred-memory flag are consumed by the external allocator and
do not appear in the abstraction. -/
def allocate_image (extents : UVec3) (storage_type : StorageType) :
    Option VulkanImage :=
  match storage_type with
  | .kTexture3D => some ⟨VK_IMAGE_LAYOUT_UNDEFINED, extents⟩
  | .kTexture2D => some ⟨VK_IMAGE_LAYOUT_UNDEFINED, extents⟩
  | .kBuffer => none

/-- `allocate_buffer` (`Tensor.cpp` lines 377-395): for buffer storage,
creates a storage buffer of `element_size(dtype) * numel` bytes (the
element size stands in for the dtype); for any other storage type returns
the empty `VulkanBuffer` (modelled `none`). -/
def allocate_buffer (elem_size numel : Nat) (storage_type : StorageType) :
    Option VulkanBuffer :=
  match storage_type with
  | .kBuffer => some ⟨elem_size * numel⟩
  | _ => none

/-- `vTensorStorage` (`Tensor.h` / `Tensor.cpp`): the storage type, the
allocated extents, the buffer element count, the two resource slots (of
which at most one is live) and the hazard record.  The non-owning context
pointer only feeds the external allocator / cleanup queue and is absent
from the abstraction. -/
structure vTensorStorage where
  storage_type : StorageType
  extents : UVec3
  buffer_length : Nat
  image : Option VulkanImage
  buffer : Option VulkanBuffer
  last_access : LastAccess
deriving DecidableEq, Repr

/-- The `vTensorStorage` constructor (`Tensor.cpp` lines 397-421):
extents from `create_image_extents`, buffer length from
`multiply_integers`, resources from the two allocators, hazard record
zero-initialized. -/
def vTensorStorage.create (storage_type : StorageType)
    (gpu_memory_layout : GPUMemoryLayout) (gpu_sizes : List Nat)
    (elem_size : Nat) : Except VkError vTensorStorage := do
  let extents ← create_image_extents gpu_sizes storage_type gpu_memory_layout
  let buffer_length := multiply_integers gpu_sizes
  pure { storage_type := storage_type
         extents := extents
         buffer_length := buffer_length
         image := allocate_image extents storage_type
         buffer := allocate_buffer elem_size buffer_length storage_type
         last_access := ⟨0, 0⟩ }

/-- `vTensorStorage::flush` (`Tensor.cpp` lines 427-434): hands the live
resource to the context's deferred-cleanup queue (external) and resets the
hazard record.  The resource members themselves are not nulled by the C++
either; they are overwritten by `discard_and_reallocate` or destroyed with
the storage. -/
def vTensorStorage.flush (s : vTensorStorage) : vTensorStorage :=
  { s with last_access := ⟨0, 0⟩ }

/-- The stage/access mapping functions consumed from the collaborator
layer (`api::vk_layout`, `api::vk_stage`, `api::vk_access`); the hazard
algorithm is verified for an arbitrary mapping. -/
structure BarrierMaps where
  vk_layout : Nat → Nat → Nat
  vk_stage : Nat → Nat
  vk_access : Nat → Nat → Nat

/-- One `VkImageMemoryBarrier` record of the accumulator
(`pipeline_barrier.images` entry as constructed at `Tensor.cpp` 470-475). -/
structure ImageMemoryBarrier where
  src_access_mask : Nat
  dst_access_mask : Nat
  old_layout : Nat
  new_layout : Nat
  image : VulkanImage
deriving DecidableEq, Repr

/-- One `VkBufferMemoryBarrier` record of the accumulator
(`pipeline_barrier.buffers` entry as constructed at `Tensor.cpp` 479-482). -/
structure BufferMemoryBarrier where
  src_access_mask : Nat
  dst_access_mask : Nat
  buffer : VulkanBuffer
deriving DecidableEq, Repr

/-- `api::PipelineBarrier`: the caller-supplied accumulator with aggregate
source/destination stage masks and the appended barrier records. -/
structure PipelineBarrier where
  src_stage_mask : Nat
  dst_stage_mask : Nat
  images : List ImageMemoryBarrier
  buffers : List BufferMemoryBarrier
deriving DecidableEq, Repr

/-- `vTensorStorage::transition` (`Tensor.cpp` lines 436-488): reads the
previous (stage, access) from the hazard record; computes, when an image
is live, the layout implied by the target (stage, access) and whether it
differs from the image's current layout; when the previous access had the
WRITE bit set or the layout changed, ORs the mapped stages (with
top-of-pipe / bottom-of-pipe sentinels for empty masks) into the
accumulator and appends one image- or buffer-memory-barrier record,
updating the image's recorded layout; finally overwrites the hazard
record with the target (stage, access) unconditionally.  Returns the
updated storage and accumulator. -/
def vTensorStorage.transition (maps : BarrierMaps) (s : vTensorStorage)
    (pipeline_barrier : PipelineBarrier) (cur_stage cur_access : Nat) :
    vTensorStorage × PipelineBarrier :=
  let prev_stage := s.last_access.stage
  let prev_access := s.last_access.access
  let prev_written := prev_access &&& MemoryAccessWRITE != 0
  let cur_layout :=
    match s.image with
    | some img => img.layout
    | none => VK_IMAGE_LAYOUT_UNDEFINED
  let new_layout :=
    match s.image with
    | some _ => maps.vk_layout cur_stage cur_access
    | none => VK_IMAGE_LAYOUT_UNDEFINED
  let layout_changed :=
    match s.image with
    | some img => img.layout != maps.vk_layout cur_stage cur_access
    | none => false
  if prev_written || layout_changed then
    let src_stage0 := maps.vk_stage prev_stage
    let src_stage :=
      if src_stage0 = 0 then VK_PIPELINE_STAGE_TOP_OF_PIPE_BIT else src_stage0
    let dst_stage0 := maps.vk_stage cur_stage
    let dst_stage :=
      if dst_stage0 = 0 then VK_PIPELINE_STAGE_BOTTOM_OF_PIPE_BIT
      else dst_stage0
    let pb1 : PipelineBarrier :=
      { pipeline_barrier with
        src_stage_mask := pipeline_barrier.src_stage_mask ||| src_stage
        dst_stage_mask := pipeline_barrier.dst_stage_mask ||| dst_stage }
    match s.image with
    | some img =>
      let pb2 : PipelineBarrier :=
        { pb1 with
          images := pb1.images ++
            [{ src_access_mask := maps.vk_access prev_stage prev_access
               dst_access_mask := maps.vk_access cur_stage cur_access
               old_layout := cur_layout
               new_layout := new_layout
               image := img }] }
      ({ s with image := some { img with layout := new_layout }
                last_access := ⟨cur_stage, cur_access⟩ }, pb2)
    | none =>
      match s.buffer with
      | some buf =>
        let pb2 : PipelineBarrier :=
          { pb1 with
            buffers := pb1.buffers ++
              [{ src_access_mask := maps.vk_access prev_stage prev_access
                 dst_access_mask := maps.vk_access cur_stage cur_access
                 buffer := buf }] }
        ({ s with last_access := ⟨cur_stage, cur_access⟩ }, pb2)
      | none =>
        ({ s with last_access := ⟨cur_stage, cur_access⟩ }, pb1)
  else
    ({ s with last_access := ⟨cur_stage, cur_access⟩ }, pipeline_barrier)

/-- `vTensorStorage::discard_and_reallocate` (`Tensor.cpp` lines 490-510):
flush (deferred cleanup + hazard reset), recompute extents and buffer
length from the new physical shape, re-run both allocators.  The
memory-ownership flags it forwards only affect the external allocator. -/
def vTensorStorage.discard_and_reallocate (s : vTensorStorage)
    (gpu_sizes : List Nat) (gpu_memory_layout : GPUMemoryLayout)
    (elem_size : Nat) : Except VkError vTensorStorage := do
  let s1 := s.flush
  let extents ← create_image_extents gpu_sizes s1.storage_type gpu_memory_layout
  let buffer_length := multiply_integers gpu_sizes
  pure { s1 with
         extents := extents
         buffer_length := buffer_length
         image := allocate_image extents s1.storage_type
         buffer := allocate_buffer elem_size buffer_length s1.storage_type }

/-- `vTensor::PackedDimMeta` (`Tensor.h`): logical and padded size of the
packed dimension, texel length along it, and the padding difference
(signed, as in the `int32_t` fields). -/
structure PackedDimMeta where
  dim_size : Int
  dim_size_padded : Int
  dim_texel_len : Int
  padding : Int
deriving DecidableEq, Repr

/-- `uvec3::data[i]`. -/
def uvec3_data (e : UVec3) : Nat → Nat
  | 0 => e.x
  | 1 => e.y
  | _ => e.z

/-- `vTensor`: logical sizes, physical (GPU) sizes, texture limits, the
three lazily-created metadata uniform buffers (modelled by their current
contents when created) and the owned storage.  The dtype is abstracted to
its element size; the half-precision device-capability check at
construction involves only the external adapter and is omitted. -/
structure vTensor where
  memory_layout : GPUMemoryLayout
  elem_size : Nat
  sizes : List Nat
  gpu_sizes : List Nat
  texture_limits : UVec3
  sizes_uniform : Option (List Nat)
  texture_limits_uniform : Option UVec3
  packed_dim_meta : Option PackedDimMeta
  storage : vTensorStorage
deriving DecidableEq, Repr

/-- `vTensor::make_packed_dim_metadata` (`Tensor.cpp` lines 216-230):
`packed_dim` is the memory layout's numeric value (width = 0, height = 1,
channels = 2); the logical and padded sizes are read with `val_at` at
depth `packed_dim + 1`, the texel length from the allocated extents. -/
def vTensor.make_packed_dim_metadata (t : vTensor) : PackedDimMeta :=
  let packed_dim := packed_offset t.memory_layout - 1
  let dim_size : Int := val_at (packed_dim + 1) t.sizes
  let dim_size_padded : Int := val_at (packed_dim + 1) t.gpu_sizes
  let dim_texel_len : Int := uvec3_data t.storage.extents packed_dim
  { dim_size := dim_size
    dim_size_padded := dim_size_padded
    dim_texel_len := dim_texel_len
    padding := dim_size_padded - dim_size }

/-- The `vTensor` constructor (`Tensor.cpp` lines 130-168): physical
shape via `calc_gpu_sizes`, storage construction, and — for texture
storage — texture limits initialized from the storage's allocated
extents.  The uniform buffers start out not created. -/
def vTensor.create (sizes : List Nat) (elem_size : Nat)
    (storage_type : StorageType) (memory_layout : GPUMemoryLayout) :
    Except VkError vTensor := do
  let gpu_sizes ← calc_gpu_sizes sizes memory_layout storage_type
  let storage ←
    vTensorStorage.create storage_type memory_layout gpu_sizes elem_size
  let texture_limits :=
    if storage_type ≠ StorageType.kBuffer then storage.extents
    else UVec3.mk 0 0 0
  pure { memory_layout := memory_layout
         elem_size := elem_size
         sizes := sizes
         gpu_sizes := gpu_sizes
         texture_limits := texture_limits
         sizes_uniform := none
         texture_limits_uniform := none
         packed_dim_meta := none
         storage := storage }

/-- `vTensor::update_size_metadata` (`Tensor.cpp` lines 274-299): store
the new logical sizes, recompute the physical sizes, recompute the
texture limits (for texture storage) from the VIRTUAL extents implied by
the new physical shape, and push the new values into every
already-created metadata uniform buffer. -/
def vTensor.update_size_metadata (t : vTensor) (new_sizes : List Nat) :
    Except VkError vTensor := do
  let sizes := new_sizes
  let gpu_sizes ← calc_gpu_sizes sizes t.memory_layout t.storage.storage_type
  let texture_limits ←
    if t.storage.storage_type ≠ StorageType.kBuffer then
      create_image_extents gpu_sizes t.storage.storage_type t.memory_layout
    else
      pure t.texture_limits
  let t1 : vTensor :=
    { t with sizes := sizes, gpu_sizes := gpu_sizes
             texture_limits := texture_limits }
  pure { t1 with
         sizes_uniform := t1.sizes_uniform.map (fun _ => make_whcn_ivec4 sizes)
         texture_limits_uniform :=
           t1.texture_limits_uniform.map (fun _ => texture_limits)
         packed_dim_meta :=
           t1.packed_dim_meta.map (fun _ => t1.make_packed_dim_metadata) }

/-- `vTensor::virtual_resize` (`Tensor.cpp` lines 309-326): for texture
storage, computes `create_image_extents` of the CURRENT member
`gpu_sizes_` (the new sizes have not been stored yet at this point),
checks it component-wise against the allocated extents and fails with
`InvalidArgument` when it exceeds them; then updates the size metadata. -/
def vTensor.virtual_resize (t : vTensor) (new_sizes : List Nat) :
    Except VkError vTensor := do
  if t.storage.storage_type ≠ StorageType.kBuffer then
    let virtual_extents ←
      create_image_extents t.gpu_sizes t.storage.storage_type t.memory_layout
    let valid_resize :=
      virtual_extents.x ≤ t.storage.extents.x ∧
      virtual_extents.y ≤ t.storage.extents.y ∧
      virtual_extents.z ≤ t.storage.extents.z
    if ¬ valid_resize then
      throw (.invalidArgument
        "Cannot use virtual resize if new sizes requires a larger texture.")
  t.update_size_metadata new_sizes

/-- `vTensor::reallocate` (`Tensor.cpp` lines 301-307): update the size
metadata, then discard and reallocate the storage at the freshly computed
physical shape. -/
def vTensor.reallocate (t : vTensor) (new_sizes : List Nat) :
    Except VkError vTensor := do
  let t1 ← t.update_size_metadata new_sizes
  let gs ← calc_gpu_sizes new_sizes t1.memory_layout t1.storage.storage_type
  let storage ←
    t1.storage.discard_and_reallocate gs t1.memory_layout t1.elem_size
  pure { t1 with storage := storage }

/-- Spec-side definition, from the specification's wording (to be compared
with the behaviour of `calc_gpu_sizes` / `create_image_extents`):
right-align a shape into exactly 4 entries, treating missing leading
dimensions as 1. -/
def right_align4 (S : List Nat) : List Nat :=
  List.replicate (4 - S.length) 1 ++ S

/-- Spec-side predicate: exactly one of the image and the buffer is live,
selected by the storage type — buffer storage has a live buffer and the
null image, texture storage has a live image and the null buffer. -/
def live_exactly (s : vTensorStorage) : Prop :=
  match s.storage_type with
  | .kBuffer => s.image = none ∧ s.buffer.isSome = true
  | .kTexture3D => s.image.isSome = true ∧ s.buffer = none
  | .kTexture2D => s.image.isSome = true ∧ s.buffer = none

/-- Concrete fixture: the storage of an image-backed tensor of logical
shape `[4]`, width-packed, 3D texture storage — allocated extent
`{1, 1, 1}`. -/
def sample_tex_storage : vTensorStorage where
  storage_type := .kTexture3D
  extents := ⟨1, 1, 1⟩
  buffer_length := 4
  image := some ⟨0, ⟨1, 1, 1⟩⟩
  buffer := none
  last_access := ⟨0, 0⟩

/-- Concrete fixture: the image-backed tensor of logical shape `[4]`,
width-packed, 3D texture storage. -/
def sample_tex_tensor : vTensor where
  memory_layout := .kWidthPacked
  elem_size := 4
  sizes := [4]
  gpu_sizes := [1, 1, 1, 4]
  texture_limits := ⟨1, 1, 1⟩
  sizes_uniform := none
  texture_limits_uniform := none
  packed_dim_meta := none
  storage := sample_tex_storage

example : vTensor.create [4] 4 .kTexture3D .kWidthPacked =
    .ok sample_tex_tensor := rfl

/-- The state of `sample_tex_tensor` after `virtual_resize` to `[8]`. -/
def sample_tex_tensor_resized : vTensor :=
  { sample_tex_tensor with
    sizes := [8]
    gpu_sizes := [1, 1, 1, 8]
    texture_limits := ⟨2, 1, 1⟩ }

/-- Concrete fixture: a buffer storage of 2 elements of size 4. -/
def sample_buf_storage : vTensorStorage where
  storage_type := .kBuffer
  extents := ⟨0, 0, 0⟩
  buffer_length := 2
  image := none
  buffer := some ⟨8⟩
  last_access := ⟨0, 0⟩

/-- Spec-side predicate, from the claims' wording: a call to `transition`
with the given target stage and access emits a barrier exactly when the
previous recorded access had the WRITE bit set or — when the live
resource is an image — the layout implied by the target differs from the
image's current layout. -/
def transition_emits (maps : BarrierMaps) (s : vTensorStorage)
    (stage access : Nat) : Prop :=
  s.last_access.access &&& MemoryAccessWRITE ≠ 0 ∨
  (∃ img, s.image = some img ∧ img.layout ≠ maps.vk_layout stage access)

/-! ### Auxiliary lemmas -/

theorem testBit_lor_left (a b i : Nat) (h : a.testBit i = true) :
    (a ||| b).testBit i = true := by
  simp [Nat.testBit_or, h]

theorem packed_offset_pos (P : GPUMemoryLayout) : 1 ≤ packed_offset P := by
  cases P <;> simp [packed_offset]

theorem packed_offset_le_four (P : GPUMemoryLayout) : packed_offset P ≤ 4 := by
  cases P <;> simp [packed_offset]

theorem align_up_four (x : Nat) :
    align_up x 4 % 4 = 0 ∧ x ≤ align_up x 4 ∧ align_up x 4 < x + 4 := by
  unfold align_up
  omega

theorem getD_set_ne (l : List Nat) (i j v : Nat) (h : i ≠ j) :
    (l.set i v).getD j 0 = l.getD j 0 := by
  simp [List.getD, List.getElem?_set_ne h]

theorem getD_set_self (l : List Nat) (i v : Nat) (h : i < l.length) :
    (l.set i v).getD i 0 = v := by
  simp [List.getD, List.getElem?_set_eq_of_lt v h]

theorem val_at_eq_getD (S : List Nat) (k : Nat) (h1 : 1 ≤ k)
    (h2 : k ≤ S.length) : val_at k S = S.getD (S.length - k) 0 := by
  unfold val_at
  have hk : k - 1 < S.reverse.length := by simp; omega
  rw [List.getD_eq_getElem _ _ hk, List.getD_eq_getElem _ _ (by omega),
    List.getElem_reverse]
  congr 1
  omega

theorem texture_base_eq_pad (S : List Nat) (h : S.length ≤ 4) :
    [val_at 4 S, val_at 3 S, val_at 2 S, val_at 1 S] = right_align4 S := by
  match S, h with
  | [], _ => rfl
  | [a], _ => rfl
  | [a, b], _ => rfl
  | [a, b, c], _ => rfl
  | [a, b, c, d], _ => rfl
  | a :: b :: c :: d :: e :: rest, h => simp at h

theorem val_at_eq_pad (S : List Nat) (h : S.length ≤ 4) (k : Nat)
    (h1 : 1 ≤ k) (h2 : k ≤ 4) :
    val_at k S = (right_align4 S).getD (4 - k) 0 := by
  rw [← texture_base_eq_pad S h]
  interval_cases k <;> rfl

theorem calc_gpu_sizes_buffer_eq (S : List Nat) (P : GPUMemoryLayout) :
    calc_gpu_sizes S P .kBuffer =
      .ok (if packed_offset P ≤ S.length
           then S.set (S.length - packed_offset P)
                  (align_up (val_at (packed_offset P) S) 4)
           else S) := by
  cases P <;> simp [calc_gpu_sizes, packed_offset] <;> split <;> rfl

theorem calc_gpu_sizes_texture_eq (S : List Nat) (P : GPUMemoryLayout)
    (K : StorageType) (hK : K ≠ StorageType.kBuffer) (h : S.length ≤ 4) :
    calc_gpu_sizes S P K =
      .ok (([val_at 4 S, val_at 3 S, val_at 2 S, val_at 1 S]).set
        (4 - packed_offset P)
        (align_up (val_at (packed_offset P) S) 4)) := by
  cases K with
  | kBuffer => exact absurd rfl hK
  | kTexture3D => cases P <;> simp [calc_gpu_sizes, h, packed_offset] <;> rfl
  | kTexture2D => cases P <;> simp [calc_gpu_sizes, h, packed_offset] <;> rfl

/-! ### Claims -/

/-- C4: for every logical shape `S` and packing policy `P`,
`calc_gpu_sizes` with buffer storage has the same rank as `S` and equals
`S` element-wise, except that the dimension selected by `P` counted from
the end is rounded up to the next multiple of 4 when `S` has at least
that many dimensions; when `S` has fewer dimensions, the result is `S`
exactly. -/
theorem C4_buffer_physical_shape (S : List Nat) (P : GPUMemoryLayout) :
    ∃ g, calc_gpu_sizes S P .kBuffer = .ok g ∧
      g.length = S.length ∧
      (S.length < packed_offset P → g = S) ∧
      (packed_offset P ≤ S.length →
        (∀ i, i < S.length → i ≠ S.length - packed_offset P →
          g.getD i 0 = S.getD i 0) ∧
        g.getD (S.length - packed_offset P) 0 % 4 = 0 ∧
        S.getD (S.length - packed_offset P) 0 ≤
          g.getD (S.length - packed_offset P) 0 ∧
        g.getD (S.length - packed_offset P) 0 <
          S.getD (S.length - packed_offset P) 0 + 4) := by
  rcases Nat.lt_or_ge S.length (packed_offset P) with hlt | hge
  · refine ⟨S, ?_, rfl, fun _ => rfl, fun hle => absurd hle (by omega)⟩
    rw [calc_gpu_sizes_buffer_eq, if_neg (by omega)]
  · have h1 : 1 ≤ packed_offset P := packed_offset_pos P
    have hidx : S.length - packed_offset P < S.length := by omega
    refine ⟨S.set (S.length - packed_offset P)
      (align_up (val_at (packed_offset P) S) 4), ?_, ?_, fun hlt => by omega,
      fun _ => ⟨fun i hi hne => getD_set_ne _ _ _ _ (fun hc => hne hc.symm), ?_⟩⟩
    · rw [calc_gpu_sizes_buffer_eq, if_pos hge]
    · exact List.length_set ..
    · rw [getD_set_self _ _ _ hidx, ← val_at_eq_getD S _ h1 hge]
      exact align_up_four _

/-- Witness for C4 at the spec's own example `[10]`, width-packed. -/
theorem C4_buffer_physical_shape_witness :
    ∃ g, calc_gpu_sizes [10] .kWidthPacked .kBuffer = .ok g ∧
      g.getD 0 0 % 4 = 0 ∧ 10 ≤ g.getD 0 0 ∧ g.getD 0 0 < 14 := by
  obtain ⟨g, h1, -, -, h4⟩ := C4_buffer_physical_shape [10] .kWidthPacked
  obtain ⟨-, hmod, hle, hlt⟩ := h4 (by decide)
  exact ⟨g, h1, hmod, by simpa using hle, by simpa using hlt⟩

/-- C5: for every logical shape `S`, packing policy `P` and image storage
kind: rank above 4 fails with an `InvalidArgument`-class error; otherwise
`calc_gpu_sizes` returns exactly 4 entries obtained by right-aligning `S`
into (batch, channel, height, width) with missing leading dimensions 1,
with the axis selected by `P` rounded up to the next multiple of 4. -/
theorem C5_texture_physical_shape (S : List Nat) (P : GPUMemoryLayout)
    (K : StorageType) (hK : K ≠ StorageType.kBuffer) :
    (4 < S.length →
      ∃ msg, calc_gpu_sizes S P K = .error (.invalidArgument msg)) ∧
    (S.length ≤ 4 →
      ∃ g, calc_gpu_sizes S P K = .ok g ∧ g.length = 4 ∧
        (∀ i, i < 4 → i ≠ 4 - packed_offset P →
          g.getD i 0 = (right_align4 S).getD i 0) ∧
        g.getD (4 - packed_offset P) 0 % 4 = 0 ∧
        (right_align4 S).getD (4 - packed_offset P) 0 ≤
          g.getD (4 - packed_offset P) 0 ∧
        g.getD (4 - packed_offset P) 0 <
          (right_align4 S).getD (4 - packed_offset P) 0 + 4) := by
  constructor
  · intro hgt
    have hnot : ¬ S.length ≤ 4 := by omega
    cases K with
    | kBuffer => exact absurd rfl hK
    | kTexture3D =>
      refine ⟨"Texture storage only valid for 0 <= ndim <= 4", ?_⟩
      simp [calc_gpu_sizes, hnot]
      rfl
    | kTexture2D =>
      refine ⟨"Texture storage only valid for 0 <= ndim <= 4", ?_⟩
      simp [calc_gpu_sizes, hnot]
      rfl
  · intro hle
    have h1 : 1 ≤ packed_offset P := packed_offset_pos P
    have h4 : packed_offset P ≤ 4 := packed_offset_le_four P
    have hidx : 4 - packed_offset P <
        [val_at 4 S, val_at 3 S, val_at 2 S, val_at 1 S].length := by
      simp; omega
    refine ⟨_, calc_gpu_sizes_texture_eq S P K hK hle, by simp, ?_, ?_⟩
    · intro i hi hne
      rw [getD_set_ne _ _ _ _ (fun hc => hne hc.symm),
        texture_base_eq_pad S hle]
    · rw [getD_set_self _ _ _ hidx, ← val_at_eq_pad S hle _ h1 h4]
      exact align_up_four _

/-- Witness for C5 at the spec's example shape `[1, 3, 8, 8]`,
channels-packed, 3D texture storage. -/
theorem C5_texture_physical_shape_witness :
    ∃ g, calc_gpu_sizes [1, 3, 8, 8] .kChannelsPacked .kTexture3D = .ok g ∧
      g.length = 4 ∧ g.getD 1 0 % 4 = 0 ∧ 3 ≤ g.getD 1 0 ∧ g.getD 1 0 < 7 := by
  obtain ⟨-, h2⟩ :=
    C5_texture_physical_shape [1, 3, 8, 8] .kChannelsPacked .kTexture3D
      (by decide)
  obtain ⟨g, hg, hlen, -, hmod, hlo, hhi⟩ := h2 (by decide)
  exact ⟨g, hg, hlen, by simpa [packed_offset] using hmod,
    by simpa [packed_offset, right_align4] using hlo,
    by simpa [packed_offset, right_align4] using hhi⟩

/-- C6: `create_image_extents` with buffer storage returns the zero
extent; with an image storage kind it fails unless the physical shape's
rank is 1..4, and otherwise extracts width, height, channel, batch by
right-alignment (missing entries 1), divides the axis selected by the
packing policy by 4 — failing with an `InvalidArgument`-class error when
that axis is not a multiple of 4 — and returns width, height and
batch * channel collapsed into the depth component. -/
theorem C6_image_extent (g : List Nat) (P : GPUMemoryLayout)
    (K : StorageType) :
    (create_image_extents g .kBuffer P = .ok ⟨0, 0, 0⟩) ∧
    (K ≠ StorageType.kBuffer →
      ((g.length = 0 ∨ 4 < g.length) →
        ∃ msg, create_image_extents g K P = .error (.invalidArgument msg)) ∧
      (1 ≤ g.length → g.length ≤ 4 →
        ((match P with
          | .kWidthPacked => (right_align4 g).getD 3 0
          | .kHeightPacked => (right_align4 g).getD 2 0
          | .kChannelsPacked => (right_align4 g).getD 1 0) % 4 ≠ 0 →
          ∃ msg,
            create_image_extents g K P = .error (.invalidArgument msg)) ∧
        ((match P with
          | .kWidthPacked => (right_align4 g).getD 3 0
          | .kHeightPacked => (right_align4 g).getD 2 0
          | .kChannelsPacked => (right_align4 g).getD 1 0) % 4 = 0 →
          create_image_extents g K P = .ok (match P with
            | .kWidthPacked =>
              ⟨(right_align4 g).getD 3 0 / 4, (right_align4 g).getD 2 0,
               (right_align4 g).getD 0 0 * (right_align4 g).getD 1 0⟩
            | .kHeightPacked =>
              ⟨(right_align4 g).getD 3 0, (right_align4 g).getD 2 0 / 4,
               (right_align4 g).getD 0 0 * (right_align4 g).getD 1 0⟩
            | .kChannelsPacked =>
              ⟨(right_align4 g).getD 3 0, (right_align4 g).getD 2 0,
               (right_align4 g).getD 0 0 *
                 ((right_align4 g).getD 1 0 / 4)⟩)))) := by
  refine ⟨rfl, fun hK => ⟨?_, ?_⟩⟩
  · intro hrank
    have hnot : ¬ (1 ≤ g.length ∧ g.length ≤ 4) := by omega
    cases K with
    | kBuffer => exact absurd rfl hK
    | kTexture3D =>
      refine ⟨"Texture storage only valid for 1 <= ndim <= 4!", ?_⟩
      simp [create_image_extents, hnot]
      rfl
    | kTexture2D =>
      refine ⟨"Texture storage only valid for 1 <= ndim <= 4!", ?_⟩
      simp [create_image_extents, hnot]
      rfl
  · intro hge hle
    have hrank : 1 ≤ g.length ∧ g.length ≤ 4 := ⟨hge, hle⟩
    have hw : val_at 1 g = (right_align4 g).getD 3 0 :=
      val_at_eq_pad g hle 1 (by omega) (by omega)
    have hh : val_at 2 g = (right_align4 g).getD 2 0 :=
      val_at_eq_pad g hle 2 (by omega) (by omega)
    have hc : val_at 3 g = (right_align4 g).getD 1 0 :=
      val_at_eq_pad g hle 3 (by omega) (by omega)
    have hb : val_at 4 g = (right_align4 g).getD 0 0 :=
      val_at_eq_pad g hle 4 (by omega) (by omega)
    cases K with
    | kBuffer => exact absurd rfl hK
    | kTexture3D =>
      cases P with
      | kWidthPacked =>
        constructor
        · intro hmod
          refine ⟨"Width must be divisible by 4!", ?_⟩
          have hmod2 : ¬ (right_align4 g)[3]?.getD 0 % 4 = 0 := by
            simpa using hmod
          simp [create_image_extents, hrank, hw, hh, hc, hb, hmod2]
          rfl
        · intro hmod
          have hmod2 : (right_align4 g)[3]?.getD 0 % 4 = 0 := by
            simpa using hmod
          simp [create_image_extents, hrank, hw, hh, hc, hb, hmod2]
          rfl
      | kHeightPacked =>
        constructor
        · intro hmod
          refine ⟨"Height must be divisible by 4!", ?_⟩
          have hmod2 : ¬ (right_align4 g)[2]?.getD 0 % 4 = 0 := by
            simpa using hmod
          simp [create_image_extents, hrank, hw, hh, hc, hb, hmod2]
          rfl
        · intro hmod
          have hmod2 : (right_align4 g)[2]?.getD 0 % 4 = 0 := by
            simpa using hmod
          simp [create_image_extents, hrank, hw, hh, hc, hb, hmod2]
          rfl
      | kChannelsPacked =>
        constructor
        · intro hmod
          refine ⟨"Channels must be divisible by 4!", ?_⟩
          have hmod2 : ¬ (right_align4 g)[1]?.getD 0 % 4 = 0 := by
            simpa using hmod
          simp [create_image_extents, hrank, hw, hh, hc, hb, hmod2]
          rfl
        · intro hmod
          have hmod2 : (right_align4 g)[1]?.getD 0 % 4 = 0 := by
            simpa using hmod
          simp [create_image_extents, hrank, hw, hh, hc, hb, hmod2]
          rfl
    | kTexture2D =>
      cases P with
      | kWidthPacked =>
        constructor
        · intro hmod
          refine ⟨"Width must be divisible by 4!", ?_⟩
          have hmod2 : ¬ (right_align4 g)[3]?.getD 0 % 4 = 0 := by
            simpa using hmod
          simp [create_image_extents, hrank, hw, hh, hc, hb, hmod2]
          rfl
        · intro hmod
          have hmod2 : (right_align4 g)[3]?.getD 0 % 4 = 0 := by
            simpa using hmod
          simp [create_image_extents, hrank, hw, hh, hc, hb, hmod2]
          rfl
      | kHeightPacked =>
        constructor
        · intro hmod
          refine ⟨"Height must be divisible by 4!", ?_⟩
          have hmod2 : ¬ (right_align4 g)[2]?.getD 0 % 4 = 0 := by
            simpa using hmod
          simp [create_image_extents, hrank, hw, hh, hc, hb, hmod2]
          rfl
        · intro hmod
          have hmod2 : (right_align4 g)[2]?.getD 0 % 4 = 0 := by
            simpa using hmod
          simp [create_image_extents, hrank, hw, hh, hc, hb, hmod2]
          rfl
      | kChannelsPacked =>
        constructor
        · intro hmod
          refine ⟨"Channels must be divisible by 4!", ?_⟩
          have hmod2 : ¬ (right_align4 g)[1]?.getD 0 % 4 = 0 := by
            simpa using hmod
          simp [create_image_extents, hrank, hw, hh, hc, hb, hmod2]
          rfl
        · intro hmod
          have hmod2 : (right_align4 g)[1]?.getD 0 % 4 = 0 := by
            simpa using hmod
          simp [create_image_extents, hrank, hw, hh, hc, hb, hmod2]
          rfl

/-- Witness for C6 at the spec's example physical shape `[1, 4, 8, 8]`,
channels-packed, 3D texture storage. -/
theorem C6_image_extent_witness :
    create_image_extents [1, 4, 8, 8] .kTexture3D .kChannelsPacked =
      .ok ⟨8, 8, 1⟩ := by
  have h :=
    ((C6_image_extent [1, 4, 8, 8] .kChannelsPacked .kTexture3D).2
      (by decide)).2 (by decide) (by decide)
  simpa [right_align4] using h.2 (by decide)

/-- C7: for every logical shape of rank at most 4, every packing policy
and every image storage kind, feeding the physical shape produced by
`calc_gpu_sizes` back into `create_image_extents` never reaches the
not-a-multiple-of-4 error branch: the packed axis is exactly divisible by
4 and the extent computation succeeds. -/
theorem C7_round_trip_exact_division (S : List Nat) (P : GPUMemoryLayout)
    (K : StorageType) (hK : K ≠ StorageType.kBuffer) (h : S.length ≤ 4) :
    ∃ g e, calc_gpu_sizes S P K = .ok g ∧ g.length = 4 ∧
      val_at (packed_offset P) g % 4 = 0 ∧
      create_image_extents g K P = .ok e := by
  have hmod := (align_up_four (val_at (packed_offset P) S)).1
  cases K with
  | kBuffer => exact absurd rfl hK
  | kTexture3D =>
    cases P with
    | kWidthPacked =>
      refine ⟨_, ⟨align_up (val_at 1 S) 4 / 4, val_at 2 S,
        val_at 4 S * val_at 3 S⟩,
        calc_gpu_sizes_texture_eq S _ _ hK h, by simp, ?_, ?_⟩
      · simpa [val_at, packed_offset] using hmod
      · simp [val_at, packed_offset] at hmod
        simp [create_image_extents, val_at, packed_offset, hmod]
        rfl
    | kHeightPacked =>
      refine ⟨_, ⟨val_at 1 S, align_up (val_at 2 S) 4 / 4,
        val_at 4 S * val_at 3 S⟩,
        calc_gpu_sizes_texture_eq S _ _ hK h, by simp, ?_, ?_⟩
      · simpa [val_at, packed_offset] using hmod
      · simp [val_at, packed_offset] at hmod
        simp [create_image_extents, val_at, packed_offset, hmod]
        rfl
    | kChannelsPacked =>
      refine ⟨_, ⟨val_at 1 S, val_at 2 S,
        val_at 4 S * (align_up (val_at 3 S) 4 / 4)⟩,
        calc_gpu_sizes_texture_eq S _ _ hK h, by simp, ?_, ?_⟩
      · simpa [val_at, packed_offset] using hmod
      · simp [val_at, packed_offset] at hmod
        simp [create_image_extents, val_at, packed_offset, hmod]
        rfl
  | kTexture2D =>
    cases P with
    | kWidthPacked =>
      refine ⟨_, ⟨align_up (val_at 1 S) 4 / 4, val_at 2 S,
        val_at 4 S * val_at 3 S⟩,
        calc_gpu_sizes_texture_eq S _ _ hK h, by simp, ?_, ?_⟩
      · simpa [val_at, packed_offset] using hmod
      · simp [val_at, packed_offset] at hmod
        simp [create_image_extents, val_at, packed_offset, hmod]
        rfl
    | kHeightPacked =>
      refine ⟨_, ⟨val_at 1 S, align_up (val_at 2 S) 4 / 4,
        val_at 4 S * val_at 3 S⟩,
        calc_gpu_sizes_texture_eq S _ _ hK h, by simp, ?_, ?_⟩
      · simpa [val_at, packed_offset] using hmod
      · simp [val_at, packed_offset] at hmod
        simp [create_image_extents, val_at, packed_offset, hmod]
        rfl
    | kChannelsPacked =>
      refine ⟨_, ⟨val_at 1 S, val_at 2 S,
        val_at 4 S * (align_up (val_at 3 S) 4 / 4)⟩,
        calc_gpu_sizes_texture_eq S _ _ hK h, by simp, ?_, ?_⟩
      · simpa [val_at, packed_offset] using hmod
      · simp [val_at, packed_offset] at hmod
        simp [create_image_extents, val_at, packed_offset, hmod]
        rfl

/-- Witness for C7 at the spec's example shape `[1, 3, 8, 8]`,
channels-packed, 3D texture storage. -/
theorem C7_round_trip_exact_division_witness :
    ∃ g e, calc_gpu_sizes [1, 3, 8, 8] .kChannelsPacked .kTexture3D =
        .ok g ∧ g.length = 4 ∧ val_at 3 g % 4 = 0 ∧
      create_image_extents g .kTexture3D .kChannelsPacked = .ok e := by
  simpa [packed_offset] using
    C7_round_trip_exact_division [1, 3, 8, 8] .kChannelsPacked .kTexture3D
      (by decide) (by decide)

/-- C3: every call to `transition` leaves the hazard record equal to the
target (stage, access), whether or not it emits a barrier; and whenever an
image-memory-barrier is emitted, the image's recorded layout equals the
target layout immediately after the call. -/
theorem C3_transition_hazard_and_layout (maps : BarrierMaps)
    (s : vTensorStorage) (pb : PipelineBarrier) (stage access : Nat) :
    (s.transition maps pb stage access).1.last_access = ⟨stage, access⟩ ∧
    ((s.transition maps pb stage access).2.images ≠ pb.images →
      ∃ img, (s.transition maps pb stage access).1.image = some img ∧
        img.layout = maps.vk_layout stage access) := by
  obtain ⟨st, ext, blen, oimg, obuf, la⟩ := s
  cases oimg with
  | some img =>
    simp only [vTensorStorage.transition]
    split
    · exact ⟨rfl, fun _ => ⟨_, rfl, rfl⟩⟩
    · exact ⟨rfl, fun h => absurd rfl h⟩
  | none =>
    cases obuf with
    | some buf =>
      simp only [vTensorStorage.transition]
      split
      · exact ⟨rfl, fun h => absurd rfl h⟩
      · exact ⟨rfl, fun h => absurd rfl h⟩
    | none =>
      simp only [vTensorStorage.transition]
      split
      · exact ⟨rfl, fun h => absurd rfl h⟩
      · exact ⟨rfl, fun h => absurd rfl h⟩

/-- Witness for C3: a write-then-read transition on an image-backed
storage updates the hazard record and the recorded layout. -/
theorem C3_transition_hazard_and_layout_witness :
    (vTensorStorage.transition ⟨fun s a => s + a, fun s => s, fun s a => s + a⟩
      ⟨StorageType.kTexture3D, ⟨1, 1, 1⟩, 4, some ⟨0, ⟨1, 1, 1⟩⟩, none,
        ⟨0, MemoryAccessWRITE⟩⟩
      ⟨0, 0, [], []⟩ 3 1).1.last_access = ⟨3, 1⟩ ∧
    ∃ img,
      (vTensorStorage.transition
        ⟨fun s a => s + a, fun s => s, fun s a => s + a⟩
        ⟨StorageType.kTexture3D, ⟨1, 1, 1⟩, 4, some ⟨0, ⟨1, 1, 1⟩⟩, none,
          ⟨0, MemoryAccessWRITE⟩⟩
        ⟨0, 0, [], []⟩ 3 1).1.image = some img ∧ img.layout = 4 := by
  obtain ⟨h1, h2⟩ := C3_transition_hazard_and_layout
    ⟨fun s a => s + a, fun s => s, fun s a => s + a⟩
    ⟨StorageType.kTexture3D, ⟨1, 1, 1⟩, 4, some ⟨0, ⟨1, 1, 1⟩⟩, none,
      ⟨0, MemoryAccessWRITE⟩⟩
    ⟨0, 0, [], []⟩ 3 1
  exact ⟨h1, h2 (by decide)⟩

/-- C10: `transition` only extends the caller-supplied accumulator — the
records present before the call are still present, unmodified and in
order (at most one new record is appended at the end), and the aggregate
source and destination stage masks only gain bits. -/
theorem C10_transition_extends_accumulator (maps : BarrierMaps)
    (s : vTensorStorage) (pb : PipelineBarrier) (stage access : Nat) :
    (∃ ti tb,
      (s.transition maps pb stage access).2.images = pb.images ++ ti ∧
      (s.transition maps pb stage access).2.buffers = pb.buffers ++ tb ∧
      ti.length + tb.length ≤ 1) ∧
    (∀ i, pb.src_stage_mask.testBit i = true →
      (s.transition maps pb stage access).2.src_stage_mask.testBit i =
        true) ∧
    (∀ i, pb.dst_stage_mask.testBit i = true →
      (s.transition maps pb stage access).2.dst_stage_mask.testBit i =
        true) := by
  obtain ⟨st, ext, blen, oimg, obuf, la⟩ := s
  cases oimg with
  | some img =>
    simp only [vTensorStorage.transition]
    split
    · exact ⟨⟨[_], [], rfl, by simp, by simp⟩,
        fun i h => testBit_lor_left _ _ _ h,
        fun i h => testBit_lor_left _ _ _ h⟩
    · exact ⟨⟨[], [], by simp, by simp, by simp⟩, fun i h => h, fun i h => h⟩
  | none =>
    cases obuf with
    | some buf =>
      simp only [vTensorStorage.transition]
      split
      · exact ⟨⟨[], [_], by simp, rfl, by simp⟩,
          fun i h => testBit_lor_left _ _ _ h,
          fun i h => testBit_lor_left _ _ _ h⟩
      · exact ⟨⟨[], [], by simp, by simp, by simp⟩,
          fun i h => h, fun i h => h⟩
    | none =>
      simp only [vTensorStorage.transition]
      split
      · exact ⟨⟨[], [], by simp, by simp, by simp⟩,
          fun i h => testBit_lor_left _ _ _ h,
          fun i h => testBit_lor_left _ _ _ h⟩
      · exact ⟨⟨[], [], by simp, by simp, by simp⟩,
          fun i h => h, fun i h => h⟩

/-- Witness for C10: a barrier-emitting transition on a buffer-backed
storage with a non-empty accumulator appends exactly one record and keeps
bit 0 of both stage masks set. -/
theorem C10_transition_extends_accumulator_witness :
    (∃ ti tb,
      (vTensorStorage.transition
        ⟨fun s a => s + a, fun s => s, fun s a => s + a⟩
        ⟨StorageType.kBuffer, ⟨0, 0, 0⟩, 4, none, some ⟨16⟩,
          ⟨2, MemoryAccessWRITE⟩⟩
        ⟨1, 1, [], [⟨0, 1, ⟨16⟩⟩]⟩ 3 1).2.buffers =
          [⟨0, 1, ⟨16⟩⟩] ++ tb ∧
      (vTensorStorage.transition
        ⟨fun s a => s + a, fun s => s, fun s a => s + a⟩
        ⟨StorageType.kBuffer, ⟨0, 0, 0⟩, 4, none, some ⟨16⟩,
          ⟨2, MemoryAccessWRITE⟩⟩
        ⟨1, 1, [], [⟨0, 1, ⟨16⟩⟩]⟩ 3 1).2.images = [] ++ ti ∧
      ti.length + tb.length ≤ 1) ∧
    (vTensorStorage.transition
      ⟨fun s a => s + a, fun s => s, fun s a => s + a⟩
      ⟨StorageType.kBuffer, ⟨0, 0, 0⟩, 4, none, some ⟨16⟩,
        ⟨2, MemoryAccessWRITE⟩⟩
      ⟨1, 1, [], [⟨0, 1, ⟨16⟩⟩]⟩ 3 1).2.src_stage_mask.testBit 0 = true := by
  obtain ⟨⟨ti, tb, hi, hb, hlen⟩, hsrc, -⟩ :=
    C10_transition_extends_accumulator
      ⟨fun s a => s + a, fun s => s, fun s a => s + a⟩
      ⟨StorageType.kBuffer, ⟨0, 0, 0⟩, 4, none, some ⟨16⟩,
        ⟨2, MemoryAccessWRITE⟩⟩
      ⟨1, 1, [], [⟨0, 1, ⟨16⟩⟩]⟩ 3 1
  exact ⟨⟨ti, tb, hb, hi, hlen⟩, hsrc 0 (by decide)⟩

/-- C2: a call to `transition` appends exactly one barrier record to the
accumulator — an image-memory-barrier when the live resource is an image,
a buffer-memory-barrier when it is a buffer — exactly when the previous
recorded access had the WRITE bit set or (for images) the layout implied
by the target (stage, access) differs from the current layout; when the
previous access was read-only and the layout is unchanged no record is
appended, and in particular a second consecutive call with the same
read-only (stage, access) leaves the accumulator untouched. -/
theorem C2_transition_barrier_emission (maps : BarrierMaps)
    (s : vTensorStorage) (pb : PipelineBarrier) (stage access : Nat) :
    (¬ transition_emits maps s stage access →
      (s.transition maps pb stage access).2 = pb) ∧
    (transition_emits maps s stage access →
      (∀ img, s.image = some img →
        (s.transition maps pb stage access).2.images.length =
          pb.images.length + 1 ∧
        (s.transition maps pb stage access).2.buffers = pb.buffers) ∧
      (s.image = none → ∀ buf, s.buffer = some buf →
        (s.transition maps pb stage access).2.buffers.length =
          pb.buffers.length + 1 ∧
        (s.transition maps pb stage access).2.images = pb.images)) ∧
    (access &&& MemoryAccessWRITE = 0 →
      ((s.transition maps pb stage access).1.transition maps
          (s.transition maps pb stage access).2 stage access).2 =
        (s.transition maps pb stage access).2) := by
  obtain ⟨st, ext, blen, oimg, obuf, la⟩ := s
  cases oimg with
  | some img =>
    cases hb : ((la.access &&& MemoryAccessWRITE != 0) ||
        (img.layout != maps.vk_layout stage access)) with
    | true =>
      have hb2 := hb
      simp only [Bool.or_eq_true, bne_iff_ne] at hb2
      have hEm : transition_emits maps
          ⟨st, ext, blen, some img, obuf, la⟩ stage access :=
        hb2.imp id (fun h => ⟨img, rfl, h⟩)
      refine ⟨fun hne => absurd hEm hne, fun _ => ⟨?_, ?_⟩, fun ha => ?_⟩
      · intro img' heq
        obtain rfl : img = img' := by injection heq
        constructor
        · simp [vTensorStorage.transition, hb]
        · simp [vTensorStorage.transition, hb]
      · intro hnone
        exact absurd hnone (by simp)
      · simp [vTensorStorage.transition, hb, ha]
    | false =>
      have hb2 := hb
      simp only [Bool.or_eq_false_iff, bne_eq_false_iff_eq] at hb2
      obtain ⟨hw, hl⟩ := hb2
      refine ⟨fun _ => ?_, fun hEm => ?_, fun ha => ?_⟩
      · simp [vTensorStorage.transition, hb]
      · exact absurd hEm (by simp [transition_emits, hw, hl])
      · have hcond2 : ((access &&& MemoryAccessWRITE != 0) ||
            (img.layout != maps.vk_layout stage access)) = false := by
          simp [ha, hl]
        simp only [vTensorStorage.transition, hb, hcond2]
        simp [ha, hl]
  | none =>
    cases hb : (la.access &&& MemoryAccessWRITE != 0) with
    | true =>
      have hEm : transition_emits maps
          ⟨st, ext, blen, none, obuf, la⟩ stage access :=
        Or.inl (bne_iff_ne.mp hb)
      cases obuf with
      | some buf =>
        refine ⟨fun hne => absurd hEm hne, fun _ => ⟨?_, ?_⟩, fun ha => ?_⟩
        · intro img' heq
          exact absurd heq (by simp)
        · intro _ buf' heq
          obtain rfl : buf = buf' := by injection heq
          constructor
          · simp [vTensorStorage.transition, hb]
          · simp [vTensorStorage.transition, hb]
        · simp [vTensorStorage.transition, hb, ha]
      | none =>
        refine ⟨fun hne => absurd hEm hne, fun _ => ⟨?_, ?_⟩, fun ha => ?_⟩
        · intro img' heq
          exact absurd heq (by simp)
        · intro _ buf' heq
          exact absurd heq (by simp)
        · simp [vTensorStorage.transition, hb, ha]
    | false =>
      have hw : la.access &&& MemoryAccessWRITE = 0 := by simpa using hb
      refine ⟨fun _ => ?_, fun hEm => ?_, fun ha => ?_⟩
      · simp [vTensorStorage.transition, hb]
      · exact absurd hEm (by simp [transition_emits, hw])
      · simp [vTensorStorage.transition, hb, ha]

/-- Witness for C2: with a written-to image-backed storage, a read
transition appends exactly one image barrier and no buffer barrier. -/
theorem C2_transition_barrier_emission_witness :
    (vTensorStorage.transition ⟨fun s a => s + a, fun s => s, fun s a => s + a⟩
      ⟨StorageType.kTexture3D, ⟨1, 1, 1⟩, 4, some ⟨0, ⟨1, 1, 1⟩⟩, none,
        ⟨0, MemoryAccessWRITE⟩⟩
      ⟨0, 0, [], []⟩ 3 1).2.images.length = 0 + 1 ∧
    (vTensorStorage.transition ⟨fun s a => s + a, fun s => s, fun s a => s + a⟩
      ⟨StorageType.kTexture3D, ⟨1, 1, 1⟩, 4, some ⟨0, ⟨1, 1, 1⟩⟩, none,
        ⟨0, MemoryAccessWRITE⟩⟩
      ⟨0, 0, [], []⟩ 3 1).2.buffers = [] := by
  have h := (C2_transition_barrier_emission
    ⟨fun s a => s + a, fun s => s, fun s a => s + a⟩
    ⟨StorageType.kTexture3D, ⟨1, 1, 1⟩, 4, some ⟨0, ⟨1, 1, 1⟩⟩, none,
      ⟨0, MemoryAccessWRITE⟩⟩
    ⟨0, 0, [], []⟩ 3 1).2.1 (Or.inl (by decide))
  exact h.1 ⟨0, ⟨1, 1, 1⟩⟩ rfl

/-- C8: when `update_size_metadata` succeeds it does not touch the
storage — in particular the image handle, the buffer handle, the
allocated extents and the buffer length are identical before and after —
and it creates no metadata uniform buffer that did not already exist; the
same holds for a successful `virtual_resize`. -/
theorem C8_resize_preserves_resource (t : vTensor) (ns : List Nat) :
    (∀ t2, t.update_size_metadata ns = .ok t2 →
      t2.storage = t.storage ∧
      t2.storage.image = t.storage.image ∧
      t2.storage.buffer = t.storage.buffer ∧
      t2.storage.extents = t.storage.extents ∧
      t2.storage.buffer_length = t.storage.buffer_length ∧
      t2.sizes_uniform.isSome = t.sizes_uniform.isSome ∧
      t2.texture_limits_uniform.isSome = t.texture_limits_uniform.isSome ∧
      t2.packed_dim_meta.isSome = t.packed_dim_meta.isSome) ∧
    (∀ t2, t.virtual_resize ns = .ok t2 →
      t2.storage = t.storage ∧
      t2.storage.image = t.storage.image ∧
      t2.storage.buffer = t.storage.buffer ∧
      t2.storage.extents = t.storage.extents ∧
      t2.storage.buffer_length = t.storage.buffer_length) := by
  have key : ∀ t2, t.update_size_metadata ns = .ok t2 →
      t2.storage = t.storage ∧
      t2.sizes_uniform.isSome = t.sizes_uniform.isSome ∧
      t2.texture_limits_uniform.isSome = t.texture_limits_uniform.isSome ∧
      t2.packed_dim_meta.isSome = t.packed_dim_meta.isSome := by
    intro t2 h
    unfold vTensor.update_size_metadata at h
    simp only [Bind.bind, Except.bind] at h
    split at h
    · cases h
    · rename_i gs heq
      split at h
      · split at h
        · cases h
        · rename_i tl heq2
          simp only [pure, Except.pure, Except.ok.injEq] at h
          subst h
          refine ⟨rfl, ?_, ?_, ?_⟩
          · cases t.sizes_uniform <;> rfl
          · cases t.texture_limits_uniform <;> rfl
          · cases t.packed_dim_meta <;> rfl
      · simp only [pure, Except.pure, Except.ok.injEq] at h
        subst h
        refine ⟨rfl, ?_, ?_, ?_⟩
        · cases t.sizes_uniform <;> rfl
        · cases t.texture_limits_uniform <;> rfl
        · cases t.packed_dim_meta <;> rfl
  constructor
  · intro t2 h
    obtain ⟨hs, h1, h2, h3⟩ := key t2 h
    exact ⟨hs, by rw [hs], by rw [hs], by rw [hs], by rw [hs], h1, h2, h3⟩
  · intro t2 h
    unfold vTensor.virtual_resize at h
    split at h
    · simp only [Bind.bind, Except.bind] at h
      split at h
      · cases h
      · rename_i ve heq
        split at h
        · cases h
        · simp only [pure, Except.pure] at h
          obtain ⟨hs, -, -, -⟩ := key t2 h
          exact ⟨hs, by rw [hs], by rw [hs], by rw [hs], by rw [hs]⟩
    · simp only [Bind.bind, Except.bind, pure, Except.pure] at h
      obtain ⟨hs, -, -, -⟩ := key t2 h
      exact ⟨hs, by rw [hs], by rw [hs], by rw [hs], by rw [hs]⟩

/-- Witness for C8: shrinking the image-backed fixture tensor from `[4]`
to `[2]` succeeds and keeps the same storage record. -/
theorem C8_resize_preserves_resource_witness :
    ∃ t2, sample_tex_tensor.virtual_resize [2] = .ok t2 ∧
      t2.storage = sample_tex_tensor.storage :=
  ⟨_, rfl, ((C8_resize_preserves_resource sample_tex_tensor [2]).2 _ rfl).1⟩

/-- C9: after construction and after every `discard_and_reallocate`,
exactly one of the image and the buffer is live, selected by the storage
type — buffer storage has a live buffer and the null image, texture
storage has a live image and the null buffer — because `allocate_image`
returns the null image for non-image storage types and `allocate_buffer`
returns the null buffer for non-buffer storage types. -/
theorem C9_exactly_one_live :
    (∀ st ml gs es s, vTensorStorage.create st ml gs es = .ok s →
      live_exactly s) ∧
    (∀ s0 gs ml es s,
      vTensorStorage.discard_and_reallocate s0 gs ml es = .ok s →
      live_exactly s) := by
  constructor
  · intro st ml gs es s h
    unfold vTensorStorage.create at h
    simp only [Bind.bind, Except.bind] at h
    split at h
    · cases h
    · simp only [pure, Except.pure, Except.ok.injEq] at h
      subst h
      cases st <;>
        simp [live_exactly, allocate_image, allocate_buffer]
  · intro s0 gs ml es s h
    unfold vTensorStorage.discard_and_reallocate at h
    simp only [Bind.bind, Except.bind] at h
    split at h
    · cases h
    · simp only [pure, Except.pure, Except.ok.injEq] at h
      subst h
      cases hst : s0.storage_type <;>
        simp [live_exactly, allocate_image, allocate_buffer,
          vTensorStorage.flush, hst]

/-- Witness for C9: a freshly constructed buffer storage has a live
buffer and the null image. -/
theorem C9_exactly_one_live_witness : live_exactly sample_buf_storage :=
  C9_exactly_one_live.1 .kBuffer .kWidthPacked [2] 4 _ rfl

/-- C1: the claim states that `virtual_resize` on an image-backed tensor
fails with an `InvalidArgument`-class error exactly when the virtual
extent implied by the NEW logical shape exceeds the allocated extent.
The code instead computes the check from the member `gpu_sizes_` BEFORE
`update_size_metadata` stores the new shape, so the comparison involves
the previous shape only: growing `[4]` (allocated extent `{1, 1, 1}`,
width-packed 3D texture) to `[8]` succeeds even though the extent implied
by `[8]` is `{2, 1, 1}`, exceeding the allocated extent in the first
component — contradicting the claim and the comment above the check in
the code. -/
theorem C1_virtual_resize_misses_growth :
    sample_tex_tensor.virtual_resize [8] = .ok sample_tex_tensor_resized ∧
    calc_gpu_sizes [8] .kWidthPacked .kTexture3D =
      .ok sample_tex_tensor_resized.gpu_sizes ∧
    create_image_extents sample_tex_tensor_resized.gpu_sizes .kTexture3D
      .kWidthPacked = .ok ⟨2, 1, 1⟩ ∧
    sample_tex_tensor.storage.extents = ⟨1, 1, 1⟩ ∧
    ¬ ((2 : Nat) ≤ sample_tex_tensor.storage.extents.x) :=
  ⟨rfl, rfl, rfl, rfl, by decide⟩

end VkCompute
